import Mathlib

/-!
# Verification of the SMA trend/crossover classifier

Shallow embedding of the analysis logic of `app.py` (functions
`calculate_sma_for_analysis`, `get_slope_direction`, `check_trend_and_cross`).

Modelling choices:
* A pandas `DataFrame` input is modelled as `Option OhlcDF`: `none` is a value
  that is not a DataFrame; `OhlcDF` carries a `hasClose` flag (whether the
  `Close` column exists) and the rows as (date string, close price) pairs,
  the date already in its `%Y/%m/%d` rendering.
* Close prices and SMA values are rationals (`Rat`); `NaN` / `None` entries of
  a pandas series are `Option Rat` with `none`.
* `check_trend_and_cross` returns `Except String AnalysisResult`: the
  `.error` constructor models a Python exception escaping the function
  (the only possible one is the `IndexError` of `ohlc_df.index[-1]` on an
  empty frame); `.ok` models a normal dictionary return.
* The returned dictionary is the structure `AnalysisResult`; a key that is
  absent from the dictionary in some branch is an `Option` field set to
  `none` (`error` in the success dict, `latest_data_date` in the
  invalid-input dict).
* Python's `round(x, 2)` is modelled as round-half-to-even on rationals.
-/

/-- A displayed SMA value: either the string `"N/A"` or a number. -/
inductive SmaVal where
  | na : SmaVal
  | val : Rat → SmaVal
deriving DecidableEq, Repr

/-- A pandas DataFrame as consumed by `check_trend_and_cross`: whether it has
a `Close` column, and its rows as (formatted date, close price) pairs. -/
structure OhlcDF where
  hasClose : Bool
  rows : List (String × Rat)
deriving DecidableEq, Repr

/-- The dictionary returned by `check_trend_and_cross`. `error = none` models
the absence of the `"error"` key; `latest_data_date = none` models the absence
of the `"latest_data_date"` key. -/
structure AnalysisResult where
  error : Option String
  trend : String
  signal : String
  latest_short_sma : SmaVal
  short_sma_slope : String
  latest_long_sma : SmaVal
  long_sma_slope : String
  latest_data_date : Option String
deriving DecidableEq, Repr

/-- Round half to even (Python's `round` tie rule) to an integer. -/
def roundHalfEven (q : Rat) : Int :=
  let f : Int := Int.fdiv q.num (q.den : Int)
  let r : Rat := q - (f : Rat)
  if r < 1/2 then f
  else if 1/2 < r then f + 1
  else if f % 2 = 0 then f else f + 1

/-- Python's `round(x, 2)`, modelled on rationals. -/
def round2 (q : Rat) : Rat := (roundHalfEven (q * 100) : Rat) / 100

/-- `calculate_sma_for_analysis` of app.py: if the series is shorter than the
window, an all-`None` series of the same length; otherwise
`rolling(window).mean()`, i.e. position `i` is the mean of the `window`
trailing values when `i ≥ window - 1` (and the window is positive), `NaN`
before that. -/
def calculate_sma_for_analysis (data_series : List Rat) (window : Nat) :
    List (Option Rat) :=
  if data_series.length < window then
    List.replicate data_series.length none
  else
    (List.range data_series.length).map (fun i =>
      if window ≤ i + 1 ∧ 1 ≤ window then
        some (((data_series.drop (i + 1 - window)).take window).sum / (window : Rat))
      else none)

/-- `get_slope_direction` of app.py: drop the `NaN` entries; with fewer than
two defined values return `"→"`, otherwise compare the last two. -/
def get_slope_direction (sma_values_series : List (Option Rat)) : String :=
  let sma_values := sma_values_series.filterMap id
  match sma_values.dropLast.getLast?, sma_values.getLast? with
  | some prev, some last =>
      if last > prev then "↑"
      else if last < prev then "↓"
      else "→"
  | _, _ => "→"

/-- `series.dropna().iloc[-1]` guarded by non-emptiness (app.py lines 49/51). -/
def latestDefined (l : List (Option Rat)) : Option Rat :=
  (l.filterMap id).getLast?

/-- `series.dropna().iloc[-2]` guarded by length ≥ 2 (app.py lines 50/52). -/
def previousDefined (l : List (Option Rat)) : Option Rat :=
  (l.filterMap id).dropLast.getLast?

/-- The trend label chosen by app.py lines 63–77 (nested `if`/`elif`). -/
def trendLabel (ls ll : Rat) (short_slope long_slope : String) : String :=
  if ls > ll then
    if short_slope = "↑" then "上昇トレンドの可能性あり 📈"
    else if long_slope = "↑" then "緩やかな上昇傾向の可能性あり"
    else "短期的に調整局面か、方向性注意"
  else if ls < ll then
    if short_slope = "↓" then "下降トレンドの可能性あり 📉"
    else if long_slope = "↓" then "緩やかな下降傾向の可能性あり"
    else "短期的に反発局面か、方向性注意"
  else "レンジ相場"

/-- The golden-cross message with the date interpolated (app.py line 86). -/
def goldenCrossMsg (cross_date : String) : String :=
  "【注目！】ゴールデンクロス発生の可能性あり！ (" ++ cross_date ++ ")"

/-- The dead-cross message with the date interpolated (app.py line 88). -/
def deadCrossMsg (cross_date : String) : String :=
  "【注意】デッドクロス発生の可能性あり！ (" ++ cross_date ++ ")"

/-- The signal chosen by app.py lines 80–88. -/
def signalLabel (prev_s prev_l : Option Rat) (ls ll : Rat)
    (cross_date : String) : String :=
  match prev_s, prev_l with
  | some ps, some pl =>
      if ps ≤ pl ∧ ls > ll then goldenCrossMsg cross_date
      else if ps ≥ pl ∧ ls < ll then deadCrossMsg cross_date
      else "シグナルなし"
  | _, _ => "シグナルなし"

/-- The invalid-input dictionary of app.py lines 33–36 (note: no
`latest_data_date` key). -/
def invalidInputResult : AnalysisResult :=
  { error := some "入力データがDataFrame形式でないか、Close価格が含まれていません。"
    trend := "データ形式エラー", signal := "N/A"
    latest_short_sma := SmaVal.na, short_sma_slope := ""
    latest_long_sma := SmaVal.na, long_sma_slope := ""
    latest_data_date := none }

/-- `check_trend_and_cross` of app.py lines 27–98. -/
def check_trend_and_cross (input : Option OhlcDF)
    (short_window long_window : Nat) : Except String AnalysisResult :=
  match input with
  | none => Except.ok invalidInputResult
  | some df =>
    if df.hasClose = false then Except.ok invalidInputResult
    else if df.rows.length < long_window then
      Except.ok { error := some "データが不足しています。"
                  trend := "データ不足", signal := "N/A"
                  latest_short_sma := SmaVal.na, short_sma_slope := ""
                  latest_long_sma := SmaVal.na, long_sma_slope := ""
                  latest_data_date := some (match df.rows.getLast? with
                    | some p => p.1
                    | none => "N/A") }
    else
      let close_prices := df.rows.map Prod.snd
      let short_sma_series := calculate_sma_for_analysis close_prices short_window
      let long_sma_series := calculate_sma_for_analysis close_prices long_window
      match latestDefined short_sma_series, latestDefined long_sma_series with
      | some ls, some ll =>
        match df.rows.getLast? with
        | none => Except.error "IndexError"
        | some lastRow =>
          let short_sma_slope := get_slope_direction short_sma_series
          let long_sma_slope := get_slope_direction long_sma_series
          let cross_date := lastRow.1
          Except.ok { latest_short_sma := SmaVal.val (round2 ls)
                      short_sma_slope := short_sma_slope
                      latest_long_sma := SmaVal.val (round2 ll)
                      long_sma_slope := long_sma_slope
                      trend := trendLabel ls ll short_sma_slope long_sma_slope
                      signal := signalLabel (previousDefined short_sma_series)
                        (previousDefined long_sma_series) ls ll cross_date
                      latest_data_date := some cross_date
                      error := none }
      | _, _ =>
        match df.rows.getLast? with
        | none => Except.error "IndexError"
        | some lastRow =>
          Except.ok { error := some "SMA計算に必要なデータが不足しています。"
                      trend := "SMA計算データ不足", signal := "N/A"
                      latest_short_sma := SmaVal.na, short_sma_slope := ""
                      latest_long_sma := SmaVal.na, long_sma_slope := ""
                      latest_data_date := some lastRow.1 }

/-- Two successive calls of the classifier on the same input, together with
the input as it stands after both calls (the source mutates nothing, so the
embedding passes it through unchanged). -/
def analyzeTwice (input : Option OhlcDF) (short_window long_window : Nat) :
    Except String AnalysisResult × Except String AnalysisResult × Option OhlcDF :=
  let first := check_trend_and_cross input short_window long_window
  let second := check_trend_and_cross input short_window long_window
  (first, second, input)

/-! ## Helper lemmas -/

instance (α β : Type) [DecidableEq α] [DecidableEq β] :
    DecidableEq (Except α β) := fun a b =>
  match a, b with
  | .error x, .error y =>
      if h : x = y then .isTrue (by rw [h])
      else .isFalse (by intro hc; cases hc; exact h rfl)
  | .ok x, .ok y =>
      if h : x = y then .isTrue (by rw [h])
      else .isFalse (by intro hc; cases hc; exact h rfl)
  | .error _, .ok _ => .isFalse (by intro hc; cases hc)
  | .ok _, .error _ => .isFalse (by intro hc; cases hc)

lemma length_calculate_sma (c : List Rat) (w : Nat) :
    (calculate_sma_for_analysis c w).length = c.length := by
  unfold calculate_sma_for_analysis
  split <;> simp

lemma sma_getElem_undefined (c : List Rat) (w i : Nat) (hi : i < c.length)
    (hiw : i + 1 < w) : (calculate_sma_for_analysis c w)[i]? = some none := by
  unfold calculate_sma_for_analysis
  split
  · simp [List.getElem?_replicate, hi]
  · rw [List.getElem?_map, List.getElem?_range hi]
    simp only [Option.map_some']
    rw [if_neg (by omega)]

lemma sma_getElem_defined (c : List Rat) (w i : Nat) (hi : i < c.length)
    (hw : 1 ≤ w) (hwi : w ≤ i + 1) :
    (calculate_sma_for_analysis c w)[i]? =
      some (some (((c.drop (i + 1 - w)).take w).sum / (w : Rat))) := by
  unfold calculate_sma_for_analysis
  split
  · rename_i hlen; omega
  · rw [List.getElem?_map, List.getElem?_range hi]
    simp only [Option.map_some']
    rw [if_pos ⟨hwi, hw⟩]

lemma filterMap_getLast?_of_getLast? (l : List (Option Rat)) (v : Rat)
    (h : l.getLast? = some (some v)) : (l.filterMap id).getLast? = some v := by
  have hne : l ≠ [] := by rintro rfl; simp at h
  have hl : l.dropLast ++ [l.getLast hne] = l := List.dropLast_append_getLast hne
  have hlast : l.getLast hne = some v := by
    rw [List.getLast?_eq_getLast l hne, Option.some_inj] at h
    exact h
  calc (l.filterMap id).getLast?
      = ((l.dropLast ++ [l.getLast hne]).filterMap id).getLast? := by rw [hl]
    _ = (l.dropLast.filterMap id ++ [v]).getLast? := by
        rw [List.filterMap_append, hlast]; rfl
    _ = some v := List.getLast?_concat _

lemma latestDefined_sma (c : List Rat) (w : Nat) (hw : 1 ≤ w)
    (hlen : w ≤ c.length) :
    latestDefined (calculate_sma_for_analysis c w) =
      some (((c.drop (c.length - w)).take w).sum / (w : Rat)) := by
  have hi : c.length - 1 < c.length := by omega
  have h1 := sma_getElem_defined c w (c.length - 1) hi hw (by omega)
  have heq : c.length - 1 + 1 - w = c.length - w := by omega
  rw [heq] at h1
  have hlastS : (calculate_sma_for_analysis c w).getLast? =
      some (some (((c.drop (c.length - w)).take w).sum / (w : Rat))) := by
    rw [List.getLast?_eq_getElem?, length_calculate_sma]
    exact h1
  exact filterMap_getLast?_of_getLast? _ _ hlastS

lemma closes_ne_nil_of_latestDefined (c : List Rat) (w : Nat) (x : Rat)
    (h : latestDefined (calculate_sma_for_analysis c w) = some x) : c ≠ [] := by
  rintro rfl
  have h0 : calculate_sma_for_analysis [] w = [] :=
    List.length_eq_zero.mp (by simpa using length_calculate_sma [] w)
  rw [h0] at h
  simp [latestDefined] at h

lemma rows_getLast?_isSome_of_latestDefined (df : OhlcDF) (w : Nat) (x : Rat)
    (h : latestDefined (calculate_sma_for_analysis (df.rows.map Prod.snd) w) = some x) :
    ∃ p, df.rows.getLast? = some p := by
  have hne : df.rows.map Prod.snd ≠ [] := closes_ne_nil_of_latestDefined _ w x h
  have hne2 : df.rows ≠ [] := by
    intro hc; rw [hc] at hne; exact hne rfl
  rcases hg : df.rows.getLast? with _ | p
  · exact absurd (List.getLast?_eq_none_iff.mp hg) hne2
  · exact ⟨p, rfl⟩

lemma getLast?_eq_some_getD (l : List Rat) (h : l ≠ []) :
    l.getLast? = some (l.getD (l.length - 1) 0) := by
  have hl : l.length - 1 < l.length := by
    cases l with
    | nil => exact absurd rfl h
    | cons a t => simp
  rw [List.getLast?_eq_getElem?, List.getD_eq_getElem?_getD,
    List.getElem?_eq_getElem hl]
  rfl

lemma dropLast_getLast?_eq_some_getD (l : List Rat) (h : 2 ≤ l.length) :
    l.dropLast.getLast? = some (l.getD (l.length - 2) 0) := by
  have hne : l.dropLast ≠ [] := by
    intro hc
    have hlen := congrArg List.length hc
    simp [List.length_dropLast] at hlen
    omega
  rw [getLast?_eq_some_getD _ hne]
  congr 1
  rw [List.getD_eq_getElem?_getD, List.getD_eq_getElem?_getD,
    List.getElem?_dropLast, List.length_dropLast]
  rw [if_pos (by omega)]
  have heq : l.length - 1 - 1 = l.length - 2 := by omega
  rw [heq]

lemma get_slope_direction_short (sma : List (Option Rat))
    (h : (sma.filterMap id).length < 2) : get_slope_direction sma = "→" := by
  have hd : (sma.filterMap id).dropLast = [] := by
    rw [List.dropLast_eq_take]
    have h0 : (sma.filterMap id).length - 1 = 0 ∨
        ((sma.filterMap id).length - 1 = 0) := by omega
    have h1 : (sma.filterMap id).length - 1 = 0 := by omega
    rw [h1, List.take_zero]
  rcases hx : (sma.filterMap id).getLast? with _ | y <;>
    simp [get_slope_direction, hd, hx]

lemma get_slope_direction_long (sma : List (Option Rat))
    (h : 2 ≤ (sma.filterMap id).length) :
    get_slope_direction sma =
      (if (sma.filterMap id).getD ((sma.filterMap id).length - 1) 0 >
            (sma.filterMap id).getD ((sma.filterMap id).length - 2) 0 then "↑"
       else if (sma.filterMap id).getD ((sma.filterMap id).length - 1) 0 <
            (sma.filterMap id).getD ((sma.filterMap id).length - 2) 0 then "↓"
       else "→") := by
  have hne : sma.filterMap id ≠ [] := by
    intro hc
    rw [hc] at h
    simp at h
  have h1 := getLast?_eq_some_getD (sma.filterMap id) hne
  have h2 := dropLast_getLast?_eq_some_getD (sma.filterMap id) h
  simp only [get_slope_direction, h1, h2]

lemma check_trend_and_cross_success (df : OhlcDF) (sw lw : Nat) (ls ll : Rat)
    (p : String × Rat)
    (hc : df.hasClose = true) (hlen : ¬ df.rows.length < lw)
    (hls : latestDefined (calculate_sma_for_analysis (df.rows.map Prod.snd) sw) = some ls)
    (hll : latestDefined (calculate_sma_for_analysis (df.rows.map Prod.snd) lw) = some ll)
    (hlast : df.rows.getLast? = some p) :
    check_trend_and_cross (some df) sw lw = Except.ok
      { error := none
        trend := trendLabel ls ll
          (get_slope_direction (calculate_sma_for_analysis (df.rows.map Prod.snd) sw))
          (get_slope_direction (calculate_sma_for_analysis (df.rows.map Prod.snd) lw))
        signal := signalLabel
          (previousDefined (calculate_sma_for_analysis (df.rows.map Prod.snd) sw))
          (previousDefined (calculate_sma_for_analysis (df.rows.map Prod.snd) lw))
          ls ll p.1
        latest_short_sma := SmaVal.val (round2 ls)
        short_sma_slope :=
          get_slope_direction (calculate_sma_for_analysis (df.rows.map Prod.snd) sw)
        latest_long_sma := SmaVal.val (round2 ll)
        long_sma_slope :=
          get_slope_direction (calculate_sma_for_analysis (df.rows.map Prod.snd) lw)
        latest_data_date := some p.1 } := by
  simp only [check_trend_and_cross]
  rw [if_neg (by simp [hc]), if_neg hlen, hls, hll, hlast]

/-! ## Claim theorems -/

/-- C3: for every close-price sequence and every window ≥ 1,
`calculate_sma_for_analysis` returns a sequence of the same length as the
input in which positions `0..window-2` are `None` and every position
`i ≥ window-1` is the arithmetic mean of the closes at positions
`i-window+1 .. i`; and whenever the series is shorter than the window the
whole result is `None` (the function is total, so no error is raised). -/
theorem C3_computeSma_spec (c : List Rat) (w : Nat) (hw : 1 ≤ w) :
    (calculate_sma_for_analysis c w).length = c.length ∧
    (∀ i, i < c.length → i + 1 < w →
      (calculate_sma_for_analysis c w)[i]? = some none) ∧
    (∀ i, i < c.length → w ≤ i + 1 →
      (calculate_sma_for_analysis c w)[i]? =
        some (some (((c.drop (i + 1 - w)).take w).sum / (w : Rat)))) ∧
    (c.length < w → ∀ i, i < c.length →
      (calculate_sma_for_analysis c w)[i]? = some none) := by
  refine ⟨length_calculate_sma c w, ?_, ?_, ?_⟩
  · intro i hi hiw
    exact sma_getElem_undefined c w i hi hiw
  · intro i hi hwi
    exact sma_getElem_defined c w i hi hw hwi
  · intro hlen i hi
    exact sma_getElem_undefined c w i hi (by omega)

/-- Witness for C3 at a concrete series and window. -/
theorem C3_computeSma_spec_witness :
    (calculate_sma_for_analysis [(1 : Rat), 2, 4] 2)[2]? =
      some (some (((([(1 : Rat), 2, 4]).drop 1).take 2).sum / (2 : Rat))) :=
  (C3_computeSma_spec [(1 : Rat), 2, 4] 2 (by decide)).2.2.1 2 (by decide) (by decide)

/-- C4: `get_slope_direction` first drops the undefined entries; with fewer
than two defined values it returns FLAT (`"→"`), and otherwise it returns UP
(`"↑"`) when the last defined value is strictly greater than the previous
defined one, DOWN (`"↓"`) when strictly smaller, and FLAT when equal. -/
theorem C4_slopeDirection_spec (sma : List (Option Rat)) :
    ((sma.filterMap id).length < 2 → get_slope_direction sma = "→") ∧
    (2 ≤ (sma.filterMap id).length →
      get_slope_direction sma =
        (if (sma.filterMap id).getD ((sma.filterMap id).length - 1) 0 >
              (sma.filterMap id).getD ((sma.filterMap id).length - 2) 0 then "↑"
         else if (sma.filterMap id).getD ((sma.filterMap id).length - 1) 0 <
              (sma.filterMap id).getD ((sma.filterMap id).length - 2) 0 then "↓"
         else "→")) :=
  ⟨get_slope_direction_short sma, get_slope_direction_long sma⟩

/-- Witness for C4 at a concrete SMA series with a rising tail. -/
theorem C4_slopeDirection_spec_witness :
    get_slope_direction [none, some (1 : Rat), some 2] = "↑" := by
  have h := (C4_slopeDirection_spec [none, some (1 : Rat), some 2]).2 (by decide)
  rw [h]
  decide

/-- C7: the classifier is pure — two successive calls on the same input give
the same result, and the input is unchanged afterwards (the embedding is a
function; the source mutates neither its argument nor any global state). -/
theorem C7_analyze_pure (input : Option OhlcDF) (sw lw : Nat) :
    (analyzeTwice input sw lw).1 = (analyzeTwice input sw lw).2.1 ∧
    (analyzeTwice input sw lw).2.2 = input :=
  ⟨rfl, rfl⟩

/-! ## Constant-series lemmas (for Scenario A and the witnesses) -/

lemma roundHalfEven_intCast (z : Int) : roundHalfEven (z : Rat) = z := by
  simp only [roundHalfEven, Rat.num_intCast, Rat.den_intCast, Nat.cast_one,
    Int.fdiv_one]
  have h0 : (z : Rat) - (z : Rat) = 0 := sub_self _
  rw [h0, if_pos (by norm_num)]

lemma round2_intMul (z : Int) (q : Rat) (h : q * 100 = (z : Rat)) :
    round2 q = (z : Rat) / 100 := by
  unfold round2
  rw [h, roundHalfEven_intCast]

lemma round2_onehundred : round2 (100 : Rat) = 100 := by
  have h := round2_intMul 10000 (100 : Rat) (by norm_num)
  rw [h]
  norm_num

lemma sma_replicate (n w : Nat) (a : Rat) (hw : 1 ≤ w) (hwn : w ≤ n) :
    calculate_sma_for_analysis (List.replicate n a) w =
      (List.range n).map (fun i => if w ≤ i + 1 then some a else none) := by
  unfold calculate_sma_for_analysis
  rw [if_neg (by simp; omega)]
  simp only [List.length_replicate]
  apply List.map_congr_left
  intro i hi
  have hi' : i < n := List.mem_range.mp hi
  by_cases hcond : w ≤ i + 1
  · rw [if_pos ⟨hcond, hw⟩, if_pos hcond]
    congr 1
    rw [List.drop_replicate, List.take_replicate]
    have hmin : min w (n - (i + 1 - w)) = w := by omega
    rw [hmin, List.sum_replicate, nsmul_eq_mul,
      mul_div_cancel_left₀ _ (show ((w : Nat) : Rat) ≠ 0 from
        Nat.cast_ne_zero.mpr (by omega))]
  · rw [if_neg (by tauto), if_neg hcond]

lemma filterMap_threshold (n w : Nat) (a : Rat) (hw : 1 ≤ w) :
    List.filterMap (fun i => if w ≤ i + 1 then some a else none) (List.range n) =
      List.replicate (n + 1 - w) a := by
  induction n with
  | zero =>
    have h0 : 0 + 1 - w = 0 := by omega
    simp [h0]
  | succ m ih =>
    rw [List.range_succ, List.filterMap_append, ih]
    by_cases h : w ≤ m + 1
    · have hstep : m + 1 + 1 - w = (m + 1 - w) + 1 := by omega
      rw [hstep, List.replicate_succ']
      simp [h]
    · have hz1 : m + 1 - w = 0 := by omega
      have hz2 : m + 1 + 1 - w = 0 := by omega
      simp [h, hz1, hz2]

lemma filterMap_sma_replicate (n w : Nat) (a : Rat) (hw : 1 ≤ w) (hwn : w ≤ n) :
    (calculate_sma_for_analysis (List.replicate n a) w).filterMap id =
      List.replicate (n + 1 - w) a := by
  rw [sma_replicate n w a hw hwn, List.filterMap_map]
  have hcomp : (id ∘ fun i => if w ≤ i + 1 then some a else none) =
      fun i => if w ≤ i + 1 then some a else none := rfl
  rw [hcomp, filterMap_threshold n w a hw]

lemma getLast?_replicate (k : Nat) (a : α) (hk : 1 ≤ k) :
    (List.replicate k a).getLast? = some a := by
  rw [List.getLast?_eq_getElem?, List.getElem?_replicate,
    if_pos (by simp; omega)]

lemma latestDefined_sma_replicate (n w : Nat) (a : Rat) (hw : 1 ≤ w)
    (hwn : w ≤ n) :
    latestDefined (calculate_sma_for_analysis (List.replicate n a) w) = some a := by
  unfold latestDefined
  rw [filterMap_sma_replicate n w a hw hwn]
  exact getLast?_replicate _ _ (by omega)

lemma previousDefined_sma_replicate (n w : Nat) (a : Rat) (hw : 1 ≤ w)
    (hwn : w + 1 ≤ n) :
    previousDefined (calculate_sma_for_analysis (List.replicate n a) w) = some a := by
  unfold previousDefined
  rw [filterMap_sma_replicate n w a hw (by omega), List.dropLast_replicate]
  exact getLast?_replicate _ _ (by omega)

lemma slope_sma_replicate (n w : Nat) (a : Rat) (hw : 1 ≤ w) (hwn : w + 1 ≤ n) :
    get_slope_direction (calculate_sma_for_analysis (List.replicate n a) w) = "→" := by
  have hfm := filterMap_sma_replicate n w a hw (by omega)
  have h1 : ((calculate_sma_for_analysis (List.replicate n a) w).filterMap id).getLast? =
      some a := by
    rw [hfm]; exact getLast?_replicate _ _ (by omega)
  have h2 : ((calculate_sma_for_analysis (List.replicate n a) w).filterMap id).dropLast.getLast? =
      some a := by
    rw [hfm, List.dropLast_replicate]; exact getLast?_replicate _ _ (by omega)
  simp only [get_slope_direction, h1, h2]
  rw [if_neg (lt_irrefl a), if_neg (lt_irrefl a)]

lemma trendLabel_eq_range (a : Rat) (s1 s2 : String) :
    trendLabel a a s1 s2 = "レンジ相場" := by
  unfold trendLabel
  rw [if_neg (lt_irrefl a), if_neg (lt_irrefl a)]

lemma signalLabel_refl (a : Rat) (d : String) :
    signalLabel (some a) (some a) a a d = "シグナルなし" := by
  show (if a ≤ a ∧ a > a then goldenCrossMsg d
    else if a ≥ a ∧ a < a then deadCrossMsg d else "シグナルなし") = "シグナルなし"
  rw [if_neg (by rintro ⟨_, h⟩; exact lt_irrefl a h),
    if_neg (by rintro ⟨_, h⟩; exact lt_irrefl a h)]

/-- C8 (Scenario A): 30 constant closes of 100, windows 5 and 25 → both SMAs
100.0, both slopes FLAT, trend "range-bound" (レンジ相場), signal
"no signal" (シグナルなし). -/
theorem C8_scenarioA :
    check_trend_and_cross
        (some ⟨true, List.replicate 30 ("2024/01/06", (100 : Rat))⟩) 5 25 =
      Except.ok { error := none
                  trend := "レンジ相場"
                  signal := "シグナルなし"
                  latest_short_sma := SmaVal.val 100
                  short_sma_slope := "→"
                  latest_long_sma := SmaVal.val 100
                  long_sma_slope := "→"
                  latest_data_date := some "2024/01/06" } := by
  have hmap : (List.replicate 30 ("2024/01/06", (100 : Rat))).map Prod.snd =
      List.replicate 30 (100 : Rat) := by rw [List.map_replicate]
  have hls : latestDefined (calculate_sma_for_analysis
      ((List.replicate 30 ("2024/01/06", (100 : Rat))).map Prod.snd) 5) = some 100 := by
    rw [hmap]; exact latestDefined_sma_replicate 30 5 100 (by omega) (by omega)
  have hll : latestDefined (calculate_sma_for_analysis
      ((List.replicate 30 ("2024/01/06", (100 : Rat))).map Prod.snd) 25) = some 100 := by
    rw [hmap]; exact latestDefined_sma_replicate 30 25 100 (by omega) (by omega)
  have hlast : (List.replicate 30 ("2024/01/06", (100 : Rat))).getLast? =
      some ("2024/01/06", (100 : Rat)) := getLast?_replicate _ _ (by omega)
  have h := check_trend_and_cross_success
    ⟨true, List.replicate 30 ("2024/01/06", (100 : Rat))⟩ 5 25 100 100
    ("2024/01/06", (100 : Rat)) rfl (by simp) hls hll hlast
  rw [h]
  congr 1
  have hslopeS : get_slope_direction (calculate_sma_for_analysis
      ((List.replicate 30 ("2024/01/06", (100 : Rat))).map Prod.snd) 5) = "→" := by
    rw [hmap]; exact slope_sma_replicate 30 5 100 (by omega) (by omega)
  have hslopeL : get_slope_direction (calculate_sma_for_analysis
      ((List.replicate 30 ("2024/01/06", (100 : Rat))).map Prod.snd) 25) = "→" := by
    rw [hmap]; exact slope_sma_replicate 30 25 100 (by omega) (by omega)
  have hprevS : previousDefined (calculate_sma_for_analysis
      ((List.replicate 30 ("2024/01/06", (100 : Rat))).map Prod.snd) 5) = some 100 := by
    rw [hmap]; exact previousDefined_sma_replicate 30 5 100 (by omega) (by omega)
  have hprevL : previousDefined (calculate_sma_for_analysis
      ((List.replicate 30 ("2024/01/06", (100 : Rat))).map Prod.snd) 25) = some 100 := by
    rw [hmap]; exact previousDefined_sma_replicate 30 25 100 (by omega) (by omega)
  rw [hslopeS, hslopeL, hprevS, hprevL, round2_onehundred,
    trendLabel_eq_range, signalLabel_refl]

/-- C5: when the series is well-formed with a Close column but shorter than
the long window, the result carries the InsufficientData error
(error "データが不足しています。", trend "データ不足", signal "N/A") and still reports the
latest observation date when the series is non-empty; the InvalidInput check
is evaluated first, so a malformed input yields the InvalidInput result even
when it is also too short. -/
theorem C5_insufficientData (df : OhlcDF) (sw lw : Nat)
    (hlen : df.rows.length < lw) :
    ∃ r, check_trend_and_cross (some df) sw lw = Except.ok r ∧
      (df.hasClose = false → r = invalidInputResult) ∧
      (df.hasClose = true →
        r.error = some "データが不足しています。" ∧ r.trend = "データ不足" ∧
        r.signal = "N/A" ∧
        (∀ p, df.rows.getLast? = some p → r.latest_data_date = some p.1)) := by
  cases hc : df.hasClose with
  | false =>
    refine ⟨invalidInputResult, ?_, fun _ => rfl, ?_⟩
    · simp [check_trend_and_cross, hc]
    · intro h; simp at h
  | true =>
    refine ⟨{ error := some "データが不足しています。"
              trend := "データ不足", signal := "N/A"
              latest_short_sma := SmaVal.na, short_sma_slope := ""
              latest_long_sma := SmaVal.na, long_sma_slope := ""
              latest_data_date := some (match df.rows.getLast? with
                | some p => p.1
                | none => "N/A") }, ?_, ?_, ?_⟩
    · simp [check_trend_and_cross, hc, hlen]
    · intro h; simp at h
    · intro _
      refine ⟨rfl, rfl, rfl, ?_⟩
      intro p hp
      simp only [hp]

/-- Witness for C5: a one-row frame with a 25-day long window. -/
theorem C5_insufficientData_witness :
    ([("2024/01/02", (5 : Rat))].length < 25) ∧
    ∃ r, check_trend_and_cross (some ⟨true, [("2024/01/02", (5 : Rat))]⟩) 3 25 =
        Except.ok r ∧
      ((OhlcDF.mk true [("2024/01/02", (5 : Rat))]).hasClose = false →
        r = invalidInputResult) ∧
      ((OhlcDF.mk true [("2024/01/02", (5 : Rat))]).hasClose = true →
        r.error = some "データが不足しています。" ∧ r.trend = "データ不足" ∧
        r.signal = "N/A" ∧
        (∀ p, (OhlcDF.mk true [("2024/01/02", (5 : Rat))]).rows.getLast? = some p →
          r.latest_data_date = some p.1)) :=
  ⟨by decide, C5_insufficientData ⟨true, [("2024/01/02", (5 : Rat))]⟩ 3 25 (by decide)⟩

/-- C9 (Scenario E): on an empty series with a positive long window the
classifier returns normally (no exception escapes): InvalidInput when the
input is malformed, InsufficientData otherwise — and in the latter case the
guarded date lookup yields the value "N/A" rather than raising. -/
theorem C9_empty_series (df : OhlcDF) (sw lw : Nat) (hrows : df.rows = [])
    (hlw : 1 ≤ lw) :
    ∃ r, check_trend_and_cross (some df) sw lw = Except.ok r ∧
      ((df.hasClose = false ∧ r = invalidInputResult) ∨
       (df.hasClose = true ∧ r.error = some "データが不足しています。" ∧
         r.latest_data_date = some "N/A")) := by
  cases hc : df.hasClose with
  | false =>
    exact ⟨invalidInputResult, by simp [check_trend_and_cross, hc],
      Or.inl ⟨rfl, rfl⟩⟩
  | true =>
    have hlen : 0 < lw := hlw
    refine ⟨{ error := some "データが不足しています。"
              trend := "データ不足", signal := "N/A"
              latest_short_sma := SmaVal.na, short_sma_slope := ""
              latest_long_sma := SmaVal.na, long_sma_slope := ""
              latest_data_date := some "N/A" }, ?_, Or.inr ⟨rfl, rfl, rfl⟩⟩
    simp [check_trend_and_cross, hc, hrows, hlen]

/-- Witness for C9: the empty frame with windows 5 and 25. -/
theorem C9_empty_series_witness :
    ∃ r, check_trend_and_cross (some ⟨true, []⟩) 5 25 = Except.ok r ∧
      (((OhlcDF.mk true []).hasClose = false ∧ r = invalidInputResult) ∨
       ((OhlcDF.mk true []).hasClose = true ∧
         r.error = some "データが不足しています。" ∧
         r.latest_data_date = some "N/A")) :=
  C9_empty_series ⟨true, []⟩ 5 25 rfl (by decide)

/-- C10 (implicit): the three error results are not uniform in shape — the
InvalidInput result has no latest-date key (`latest_data_date = none`) while
the InsufficientData and InsufficientSmaData results always carry one; all
three have "N/A" in both SMA fields and the empty string in both slope
fields. -/
theorem C10_error_result_shape (input : Option OhlcDF) (sw lw : Nat)
    (r : AnalysisResult)
    (hok : check_trend_and_cross input sw lw = Except.ok r)
    (herr : r.error ≠ none) :
    r.latest_short_sma = SmaVal.na ∧ r.latest_long_sma = SmaVal.na ∧
    r.short_sma_slope = "" ∧ r.long_sma_slope = "" ∧
    (r.error = some "入力データがDataFrame形式でないか、Close価格が含まれていません。" →
      r.latest_data_date = none) ∧
    (r.error = some "データが不足しています。" → ∃ d, r.latest_data_date = some d) ∧
    (r.error = some "SMA計算に必要なデータが不足しています。" → ∃ d, r.latest_data_date = some d) := by
  rcases input with _ | df
  · simp only [check_trend_and_cross] at hok
    injection hok with h
    subst h
    exact ⟨rfl, rfl, rfl, rfl, fun _ => rfl,
      fun h => absurd h (by decide), fun h => absurd h (by decide)⟩
  · simp only [check_trend_and_cross] at hok
    by_cases hc : df.hasClose = false
    · rw [if_pos hc] at hok
      injection hok with h
      subst h
      exact ⟨rfl, rfl, rfl, rfl, fun _ => rfl,
        fun h => absurd h (by decide), fun h => absurd h (by decide)⟩
    · rw [if_neg hc] at hok
      by_cases hlen : df.rows.length < lw
      · rw [if_pos hlen] at hok
        injection hok with h
        subst h
        refine ⟨rfl, rfl, rfl, rfl, ?_, ?_, ?_⟩
        · intro hh; simp at hh
        · intro _; exact ⟨_, rfl⟩
        · intro hh; simp at hh
      · rw [if_neg hlen] at hok
        split at hok
        · split at hok
          · cases hok
          · injection hok with h
            subst h
            exact absurd rfl herr
        · split at hok
          · cases hok
          · injection hok with h
            subst h
            refine ⟨rfl, rfl, rfl, rfl, ?_, ?_, ?_⟩
            · intro hh; simp at hh
            · intro hh; simp at hh
            · intro _; exact ⟨_, rfl⟩

/-- Witness for C10 at the non-DataFrame input. -/
theorem C10_error_result_shape_witness :
    invalidInputResult.latest_short_sma = SmaVal.na ∧
    invalidInputResult.latest_long_sma = SmaVal.na ∧
    invalidInputResult.short_sma_slope = "" ∧
    invalidInputResult.long_sma_slope = "" ∧
    (invalidInputResult.error =
        some "入力データがDataFrame形式でないか、Close価格が含まれていません。" →
      invalidInputResult.latest_data_date = none) ∧
    (invalidInputResult.error = some "データが不足しています。" →
      ∃ d, invalidInputResult.latest_data_date = some d) ∧
    (invalidInputResult.error = some "SMA計算に必要なデータが不足しています。" →
      ∃ d, invalidInputResult.latest_data_date = some d) :=
  C10_error_result_shape none 5 25 invalidInputResult (by decide) (by decide)

/-- C1: under the non-error preconditions (well-formed frame with a Close
column, positive windows, series at least as long as the long window, both
latest SMA values defined) the trend label follows the ordered table of the
spec, with all comparisons on the unrounded SMA values `ls`, `ll`, while the
returned SMA fields are the rounded values.
(Label correspondence: "上昇トレンドの可能性あり 📈" = possible uptrend,
"緩やかな上昇傾向の可能性あり" = possible gentle uptrend, "短期的に調整局面か、方向性注意" =
possible short-term pullback / caution, "下降トレンドの可能性あり 📉" = possible
downtrend, "緩やかな下降傾向の可能性あり" = possible gentle downtrend,
"短期的に反発局面か、方向性注意" = possible short-term rebound / caution,
"レンジ相場" = range-bound.) -/
theorem C1_trend_classification (df : OhlcDF) (sw lw : Nat) (ls ll : Rat)
    (hc : df.hasClose = true) (hsw : 1 ≤ sw) (hlw : 1 ≤ lw)
    (hlen : lw ≤ df.rows.length)
    (hls : latestDefined (calculate_sma_for_analysis (df.rows.map Prod.snd) sw) =
      some ls)
    (hll : latestDefined (calculate_sma_for_analysis (df.rows.map Prod.snd) lw) =
      some ll) :
    ∃ r, check_trend_and_cross (some df) sw lw = Except.ok r ∧
      r.latest_short_sma = SmaVal.val (round2 ls) ∧
      r.latest_long_sma = SmaVal.val (round2 ll) ∧
      (ll < ls →
        get_slope_direction (calculate_sma_for_analysis (df.rows.map Prod.snd) sw) = "↑" →
        r.trend = "上昇トレンドの可能性あり 📈") ∧
      (ll < ls →
        get_slope_direction (calculate_sma_for_analysis (df.rows.map Prod.snd) sw) ≠ "↑" →
        get_slope_direction (calculate_sma_for_analysis (df.rows.map Prod.snd) lw) = "↑" →
        r.trend = "緩やかな上昇傾向の可能性あり") ∧
      (ll < ls →
        get_slope_direction (calculate_sma_for_analysis (df.rows.map Prod.snd) sw) ≠ "↑" →
        get_slope_direction (calculate_sma_for_analysis (df.rows.map Prod.snd) lw) ≠ "↑" →
        r.trend = "短期的に調整局面か、方向性注意") ∧
      (ls < ll →
        get_slope_direction (calculate_sma_for_analysis (df.rows.map Prod.snd) sw) = "↓" →
        r.trend = "下降トレンドの可能性あり 📉") ∧
      (ls < ll →
        get_slope_direction (calculate_sma_for_analysis (df.rows.map Prod.snd) sw) ≠ "↓" →
        get_slope_direction (calculate_sma_for_analysis (df.rows.map Prod.snd) lw) = "↓" →
        r.trend = "緩やかな下降傾向の可能性あり") ∧
      (ls < ll →
        get_slope_direction (calculate_sma_for_analysis (df.rows.map Prod.snd) sw) ≠ "↓" →
        get_slope_direction (calculate_sma_for_analysis (df.rows.map Prod.snd) lw) ≠ "↓" →
        r.trend = "短期的に反発局面か、方向性注意") ∧
      (ls = ll → r.trend = "レンジ相場") := by
  obtain ⟨p, hp⟩ := rows_getLast?_isSome_of_latestDefined df sw ls hls
  have hsucc := check_trend_and_cross_success df sw lw ls ll p hc (by omega) hls hll hp
  refine ⟨_, hsucc, rfl, rfl, ?_, ?_, ?_, ?_, ?_, ?_, ?_⟩
  · intro h1 h2
    simp only [trendLabel]
    rw [if_pos h1, if_pos h2]
  · intro h1 h2 h3
    simp only [trendLabel]
    rw [if_pos h1, if_neg h2, if_pos h3]
  · intro h1 h2 h3
    simp only [trendLabel]
    rw [if_pos h1, if_neg h2, if_neg h3]
  · intro h1 h2
    simp only [trendLabel]
    rw [if_neg (lt_asymm h1), if_pos h1, if_pos h2]
  · intro h1 h2 h3
    simp only [trendLabel]
    rw [if_neg (lt_asymm h1), if_pos h1, if_neg h2, if_pos h3]
  · intro h1 h2 h3
    simp only [trendLabel]
    rw [if_neg (lt_asymm h1), if_pos h1, if_neg h2, if_neg h3]
  · intro h1
    simp only [trendLabel]
    rw [h1, if_neg (lt_irrefl ll), if_neg (lt_irrefl ll)]

/-- Witness for C1 at the constant 30-observation series (range-bound row). -/
theorem C1_trend_classification_witness :
    ∃ r, check_trend_and_cross
        (some ⟨true, List.replicate 30 ("2024/01/06", (100 : Rat))⟩) 5 25 =
      Except.ok r ∧
      r.latest_short_sma = SmaVal.val (round2 100) ∧
      r.trend = "レンジ相場" := by
  obtain ⟨r, h1, h2, h3, t1, t2, t3, t4, t5, t6, t7⟩ :=
    C1_trend_classification ⟨true, List.replicate 30 ("2024/01/06", (100 : Rat))⟩
      5 25 100 100 rfl (by omega) (by omega) (by simp)
      (by simp only [List.map_replicate]
          exact latestDefined_sma_replicate 30 5 100 (by omega) (by omega))
      (by simp only [List.map_replicate]
          exact latestDefined_sma_replicate 30 25 100 (by omega) (by omega))
  exact ⟨r, h1, h2, t7 rfl⟩

/-- C2: under the non-error preconditions, when both previous SMA values are
defined the signal is the golden-cross message with the latest observation
date exactly when previousShort ≤ previousLong and latestShort > latestLong,
the dead-cross message with that date exactly when previousShort ≥
previousLong and latestShort < latestLong, and "シグナルなし" (no signal)
otherwise; when either previous value is undefined the signal is "シグナルなし". -/
theorem C2_cross_signal (df : OhlcDF) (sw lw : Nat) (ls ll : Rat)
    (hc : df.hasClose = true) (hsw : 1 ≤ sw) (hlw : 1 ≤ lw)
    (hlen : lw ≤ df.rows.length)
    (hls : latestDefined (calculate_sma_for_analysis (df.rows.map Prod.snd) sw) =
      some ls)
    (hll : latestDefined (calculate_sma_for_analysis (df.rows.map Prod.snd) lw) =
      some ll) :
    ∃ r p, check_trend_and_cross (some df) sw lw = Except.ok r ∧
      df.rows.getLast? = some p ∧
      (∀ ps pl,
        previousDefined (calculate_sma_for_analysis (df.rows.map Prod.snd) sw) =
          some ps →
        previousDefined (calculate_sma_for_analysis (df.rows.map Prod.snd) lw) =
          some pl →
        ((ps ≤ pl ∧ ll < ls) → r.signal = goldenCrossMsg p.1) ∧
        ((pl ≤ ps ∧ ls < ll) → r.signal = deadCrossMsg p.1) ∧
        (¬(ps ≤ pl ∧ ll < ls) → ¬(pl ≤ ps ∧ ls < ll) →
          r.signal = "シグナルなし")) ∧
      ((previousDefined (calculate_sma_for_analysis (df.rows.map Prod.snd) sw) =
          none ∨
        previousDefined (calculate_sma_for_analysis (df.rows.map Prod.snd) lw) =
          none) →
        r.signal = "シグナルなし") := by
  obtain ⟨p, hp⟩ := rows_getLast?_isSome_of_latestDefined df sw ls hls
  have hsucc := check_trend_and_cross_success df sw lw ls ll p hc (by omega) hls hll hp
  refine ⟨_, p, hsucc, hp, ?_, ?_⟩
  · intro ps pl hps hpl
    refine ⟨?_, ?_, ?_⟩
    · intro hcond
      show signalLabel _ _ ls ll p.1 = _
      rw [hps, hpl]
      show (if ps ≤ pl ∧ ls > ll then goldenCrossMsg p.1
        else if ps ≥ pl ∧ ls < ll then deadCrossMsg p.1
        else "シグナルなし") = _
      rw [if_pos hcond]
    · intro hcond
      show signalLabel _ _ ls ll p.1 = _
      rw [hps, hpl]
      show (if ps ≤ pl ∧ ls > ll then goldenCrossMsg p.1
        else if ps ≥ pl ∧ ls < ll then deadCrossMsg p.1
        else "シグナルなし") = _
      rw [if_neg (by rintro ⟨_, hgt⟩; exact lt_asymm hcond.2 hgt), if_pos hcond]
    · intro hn1 hn2
      show signalLabel _ _ ls ll p.1 = _
      rw [hps, hpl]
      show (if ps ≤ pl ∧ ls > ll then goldenCrossMsg p.1
        else if ps ≥ pl ∧ ls < ll then deadCrossMsg p.1
        else "シグナルなし") = _
      rw [if_neg hn1, if_neg hn2]
  · intro hdisj
    show signalLabel _ _ ls ll p.1 = _
    rcases hdisj with h | h
    · rw [h]
      rfl
    · rw [h]
      rcases hX : previousDefined (calculate_sma_for_analysis
          (df.rows.map Prod.snd) sw) with _ | ps <;> rfl

/-- Witness for C2 at the constant 30-observation series (no-signal row). -/
theorem C2_cross_signal_witness :
    ∃ r p, check_trend_and_cross
        (some ⟨true, List.replicate 30 ("2024/01/06", (100 : Rat))⟩) 5 25 =
      Except.ok r ∧
      (OhlcDF.mk true (List.replicate 30 ("2024/01/06", (100 : Rat)))).rows.getLast? =
        some p ∧
      r.signal = "シグナルなし" := by
  obtain ⟨r, p, h1, h2, hboth, _⟩ :=
    C2_cross_signal ⟨true, List.replicate 30 ("2024/01/06", (100 : Rat))⟩
      5 25 100 100 rfl (by omega) (by omega) (by simp)
      (by simp only [List.map_replicate]
          exact latestDefined_sma_replicate 30 5 100 (by omega) (by omega))
      (by simp only [List.map_replicate]
          exact latestDefined_sma_replicate 30 25 100 (by omega) (by omega))
  have hprevS : previousDefined (calculate_sma_for_analysis
      ((OhlcDF.mk true (List.replicate 30 ("2024/01/06", (100 : Rat)))).rows.map
        Prod.snd) 5) = some 100 := by
    simp only [List.map_replicate]
    exact previousDefined_sma_replicate 30 5 100 (by omega) (by omega)
  have hprevL : previousDefined (calculate_sma_for_analysis
      ((OhlcDF.mk true (List.replicate 30 ("2024/01/06", (100 : Rat)))).rows.map
        Prod.snd) 25) = some 100 := by
    simp only [List.map_replicate]
    exact previousDefined_sma_replicate 30 25 100 (by omega) (by omega)
  refine ⟨r, p, h1, h2, ?_⟩
  exact (hboth 100 100 hprevS hprevL).2.2
    (by rintro ⟨_, hlt⟩; exact lt_irrefl _ hlt)
    (by rintro ⟨_, hlt⟩; exact lt_irrefl _ hlt)

/-- Counterexample to C6 as stated: with positive windows 50 and 2 and a
2-observation series (so len ≥ longWindow), the classifier does return the
InsufficientSmaData result, because the short window exceeds the series
length. -/
theorem C6_counterexample :
    (1 ≤ 50) ∧ (1 ≤ 2) ∧
    (2 ≤ (OhlcDF.mk true
      [("2024/01/01", (1 : Rat)), ("2024/01/02", (1 : Rat))]).rows.length) ∧
    check_trend_and_cross
        (some ⟨true, [("2024/01/01", (1 : Rat)), ("2024/01/02", (1 : Rat))]⟩) 50 2 =
      Except.ok { error := some "SMA計算に必要なデータが不足しています。"
                  trend := "SMA計算データ不足", signal := "N/A"
                  latest_short_sma := SmaVal.na, short_sma_slope := ""
                  latest_long_sma := SmaVal.na, long_sma_slope := ""
                  latest_data_date := some "2024/01/02" } := by
  refine ⟨by decide, by decide, by decide, ?_⟩
  decide

/-- C6 as amended: with positive windows and a series at least as long as
BOTH windows (not just the long one), the classifier never returns the
InsufficientSmaData error — it returns the success result. -/
theorem C6_no_sma_error_amended (df : OhlcDF) (sw lw : Nat)
    (hc : df.hasClose = true) (hsw : 1 ≤ sw) (hlw : 1 ≤ lw)
    (hlens : sw ≤ df.rows.length) (hlenl : lw ≤ df.rows.length) :
    ∃ r, check_trend_and_cross (some df) sw lw = Except.ok r ∧
      r.error = none ∧ r.error ≠ some "SMA計算に必要なデータが不足しています。" := by
  have hclen : (df.rows.map Prod.snd).length = df.rows.length :=
    List.length_map _ _
  have hls := latestDefined_sma (df.rows.map Prod.snd) sw hsw (by omega)
  have hll := latestDefined_sma (df.rows.map Prod.snd) lw hlw (by omega)
  obtain ⟨p, hp⟩ := rows_getLast?_isSome_of_latestDefined df sw _ hls
  exact ⟨_, check_trend_and_cross_success df sw lw _ _ p hc (by omega) hls hll hp,
    rfl, by simp⟩

/-- Witness for the amended C6 at the constant 30-observation series. -/
theorem C6_no_sma_error_amended_witness :
    ∃ r, check_trend_and_cross
        (some ⟨true, List.replicate 30 ("2024/01/06", (100 : Rat))⟩) 5 25 =
      Except.ok r ∧
      r.error = none ∧ r.error ≠ some "SMA計算に必要なデータが不足しています。" :=
  C6_no_sma_error_amended ⟨true, List.replicate 30 ("2024/01/06", (100 : Rat))⟩
    5 25 rfl (by omega) (by omega) (by simp) (by simp)
